import Mathlib

/-!
Shallow embedding of `src/final.py` (a Streamlit voice-cloning app) and
proofs of the specification's testable properties.

The app's state is modelled explicitly:
  * the file system is an association list from paths to file contents;
  * file contents are either opaque raw bytes or a decoded WAV
    (a sample list together with its sample rate);
  * `st.cache_resource` on `load_xtts_model` is a process-global cache
    holding the function's return value (which may be `none` when model
    loading failed and the function returned Python `None`);
  * `st.session_state` is per-session; the `model` key holds
    `Option Handle` and may be absent (`SessionState.model = none`);
  * external effects (librosa decoding, the XTTS engine call) are
    oracles passed in as function parameters, so every behaviour of the
    external dependencies is quantified over.

Instrumentation counters (constructor invocations, preprocess and
pipeline invocations, the falsy-model guard inside
`generate_voice_clone`) record exactly which code paths ran.
-/

namespace VoiceCloner

/-- File paths, as abstract identifiers. -/
abbrev Path := Nat

/-- Engine handles (TTS object identities). -/
abbrev Handle := Nat

/-- Contents of a file: opaque bytes, or audio samples encoded as WAV at a
sample rate (what `soundfile.write` produces). -/
inductive FileData where
  | raw (bytes : List Nat)
  | wav (samples : List Int) (sr : Nat)
deriving DecidableEq

/-- The file system: newest write first; `fsRead` finds the newest entry. -/
abbrev FS := List (Path × FileData)

/-- Read a file, `none` when the path does not exist. -/
def fsRead : FS → Path → Option FileData
  | [], _ => none
  | (q, d) :: rest, p => if q = p then some d else fsRead rest p

/-- Write (create or overwrite) a file. -/
def fsWrite (fs : FS) (p : Path) (d : FileData) : FS := (p, d) :: fs

/-- Largest path mentioned in the file system. -/
def maxKey : FS → Nat
  | [] => 0
  | (q, _) :: rest => max q (maxKey rest)

/-- A path not yet present, modelling `tempfile.NamedTemporaryFile`. -/
def freshPath (fs : FS) : Path := maxKey fs + 1

/-- Messages surfaced to the user (`st.info`, `st.success`, `st.warning`,
`st.error`). -/
inductive Msg where
  | info (s : String)
  | success (s : String)
  | warning (s : String)
  | error (s : String)
deriving DecidableEq

/-- Per-session `st.session_state`: the `model` key may be absent (outer
`none`), and when present holds either a handle or Python `None` (inner
`Option`). -/
structure SessionState where
  model : Option (Option Handle)
deriving DecidableEq

/-- The process-global `st.cache_resource` cache for `load_xtts_model`,
plus an invocation counter for the engine constructor
`TTS("tts_models/multilingual/multi-dataset/xtts_v2")`. -/
structure CacheState where
  gcache : Option (Option Handle)
  ctorCalls : Nat
deriving DecidableEq

/-- Result of running `load_xtts_model` (src/final.py lines 59-69). -/
structure LoadResult where
  value : Option Handle
  cache : CacheState
  msgs : List Msg
deriving DecidableEq

/-- `load_xtts_model` (src/final.py lines 59-69): decorated with
`st.cache_resource`, so on a cache hit the body does not run at all; on a
miss the body runs, catches any constructor exception, and the returned
value (possibly `None`) is stored in the global cache. `ctor n` is the
oracle outcome of the n-th constructor invocation. -/
def load_xtts_model (ctor : Nat → Except String Handle) (cs : CacheState) : LoadResult :=
  match cs.gcache with
  | some v => { value := v, cache := cs, msgs := [] }
  | none =>
    match ctor cs.ctorCalls with
    | Except.ok h =>
        { value := some h
          cache := { gcache := some (some h), ctorCalls := cs.ctorCalls + 1 }
          msgs := [Msg.info "🔄 Loading XTTS model...",
                   Msg.success "✅ Model loaded successfully!"] }
    | Except.error e =>
        { value := none
          cache := { gcache := some none, ctorCalls := cs.ctorCalls + 1 }
          msgs := [Msg.info "🔄 Loading XTTS model...",
                   Msg.error ("❌ Model loading failed: " ++ e)] }

/-- Result of the session-model initialisation step. -/
structure InitResult where
  sess : SessionState
  cache : CacheState
  msgs : List Msg
deriving DecidableEq

/-- Lines 103-104 of src/final.py: `if "model" not in st.session_state:
st.session_state.model = load_xtts_model()`. -/
def initModel (ctor : Nat → Except String Handle) (sess : SessionState)
    (cs : CacheState) : InitResult :=
  match sess.model with
  | some _ => { sess := sess, cache := cs, msgs := [] }
  | none =>
    let r := load_xtts_model ctor cs
    { sess := { model := some r.value }, cache := r.cache, msgs := r.msgs }

/-- `preprocess_audio` (src/final.py lines 72-82). `dec` is the oracle for
`librosa.load(path, sr=22050)`: `some samples` when decoding succeeds,
`none` when it raises. On decode failure the bare `except:` falls back to
`shutil.copy2(audio_path, output_path)`. When the source file itself does
not exist, the fallback `shutil.copy2` raises as well and that exception
escapes the function: this is the `none` result. -/
def preprocess_audio (dec : FileData → Option (List Int)) (fs : FS)
    (audio_path output_path : Path) (max_duration : Nat) : Option (FS × Bool) :=
  match fsRead fs audio_path with
  | none => none
  | some src =>
    match dec src with
    | some audio =>
        let max_samples := min audio.length (max_duration * 22050)
        some (fsWrite fs output_path (FileData.wav (List.take max_samples audio) 22050), true)
    | none => some (fsWrite fs output_path src, false)

/-- Result of `generate_voice_clone`: the file system afterwards, the
messages it emitted, the returned output path (`none` models Python
`None`), how many times the engine was invoked, and whether the
`if not tts: return None` guard fired. -/
structure GenResult where
  fs : FS
  msgs : List Msg
  output : Option Path
  engineCalls : Nat
  guardTripped : Bool
deriving DecidableEq

/-- `generate_voice_clone` (src/final.py lines 85-100). `engine h text ref
lang` is the oracle for `tts.tts_to_file(...)`: `ok d` means the engine
wrote data `d` to the output file and returned, `error e` means it raised
an exception whose `str` is `e`. The whole body sits in `try/except`: an
absent `model` key raises an AttributeError that the handler catches; a
falsy (None) model returns `None` silently; otherwise a fresh temp file is
created and the engine invoked, any exception being converted to an
`st.error` message and a `None` return. -/
def generate_voice_clone
    (engine : Handle → String → Option FileData → String → Except String FileData)
    (sess : SessionState) (fs : FS) (text : String)
    (reference_audio_path : Path) (language : String) : GenResult :=
  match sess.model with
  | none =>
      { fs := fs
        msgs := [Msg.error "❌ Voice cloning failed: st.session_state has no attribute \"model\""]
        output := none, engineCalls := 0, guardTripped := false }
  | some none =>
      { fs := fs, msgs := [], output := none, engineCalls := 0, guardTripped := true }
  | some (some h) =>
      let tmp := freshPath fs
      let fs1 := fsWrite fs tmp (FileData.raw [])
      match engine h text (fsRead fs reference_audio_path) language with
      | Except.ok d =>
          { fs := fsWrite fs1 tmp d, msgs := [], output := some tmp
            engineCalls := 1, guardTripped := false }
      | Except.error e =>
          { fs := fs1
            msgs := [Msg.error ("❌ Voice cloning failed: " ++ e)]
            output := none, engineCalls := 1, guardTripped := false }

/-- Drop leading whitespace characters from a character list. -/
def dropLeadingWS : List Char → List Char
  | [] => []
  | c :: cs => if c.isWhitespace then dropLeadingWS cs else c :: cs

/-- Python `str.strip()` as used in `if not text.strip():` (src/final.py
line 133): remove leading and trailing whitespace. Defined by structural
recursion so that it evaluates on concrete inputs. -/
def strip (s : String) : String :=
  ⟨(dropLeadingWS (dropLeadingWS s.data).reverse).reverse⟩

/-- The UI inputs to one script run: the uploaded reference audio (if
any), the text area contents, the selected language, and whether the
generate button was clicked on this run. -/
structure ScriptInput where
  uploaded : Option FileData
  text : String
  language : String
  generateClicked : Bool
deriving DecidableEq

/-- Observable outcome of one script run: final session, global cache and
file system, emitted messages, whether `st.stop()` fired, invocation
counters for `preprocess_audio` and `generate_voice_clone`, whether the
falsy-model guard inside the pipeline fired, whether the run crashed with
an unhandled exception, and the generated output path if any. -/
structure ScriptResult where
  sess : SessionState
  cache : CacheState
  fs : FS
  msgs : List Msg
  stopped : Bool
  preprocessCalls : Nat
  pipelineCalls : Nat
  guardTripped : Bool
  crashed : Bool
  output : Option Path
deriving DecidableEq

/-- One top-to-bottom run of the script (src/final.py lines 103-158):
initialise the session model, `st.stop()` when it is `None`, then on a
generate click validate the text and the upload, persist the uploaded
bytes to a temp file, create a second temp file, preprocess into it with a
15 second cap, and run `generate_voice_clone`; on success report success
and offer playback and download. -/
def runScript (ctor : Nat → Except String Handle)
    (dec : FileData → Option (List Int))
    (engine : Handle → String → Option FileData → String → Except String FileData)
    (sess : SessionState) (cs : CacheState) (fs : FS) (inp : ScriptInput) :
    ScriptResult :=
  let ir := initModel ctor sess cs
  match ir.sess.model with
  | some none =>
      { sess := ir.sess, cache := ir.cache, fs := fs, msgs := ir.msgs
        stopped := true, preprocessCalls := 0, pipelineCalls := 0
        guardTripped := false, crashed := false, output := none }
  | _ =>
    if inp.generateClicked then
      if strip inp.text = "" then
        { sess := ir.sess, cache := ir.cache, fs := fs
          msgs := ir.msgs ++ [Msg.warning "⚠️ Please enter some text."]
          stopped := false, preprocessCalls := 0, pipelineCalls := 0
          guardTripped := false, crashed := false, output := none }
      else
        match inp.uploaded with
        | none =>
            { sess := ir.sess, cache := ir.cache, fs := fs
              msgs := ir.msgs ++ [Msg.warning "⚠️ Please upload a reference audio file."]
              stopped := false, preprocessCalls := 0, pipelineCalls := 0
              guardTripped := false, crashed := false, output := none }
        | some updata =>
            let ref_path := freshPath fs
            let fs1 := fsWrite fs ref_path updata
            let short_ref_path := freshPath fs1
            let fs2 := fsWrite fs1 short_ref_path (FileData.raw [])
            match preprocess_audio dec fs2 ref_path short_ref_path 15 with
            | none =>
                { sess := ir.sess, cache := ir.cache, fs := fs2, msgs := ir.msgs
                  stopped := false, preprocessCalls := 1, pipelineCalls := 0
                  guardTripped := false, crashed := true, output := none }
            | some pr =>
                let g := generate_voice_clone engine ir.sess pr.1 inp.text
                           short_ref_path inp.language
                match g.output with
                | some p =>
                    { sess := ir.sess, cache := ir.cache, fs := g.fs
                      msgs := ir.msgs ++ g.msgs ++ [Msg.success "✅ Voice cloning complete!"]
                      stopped := false, preprocessCalls := 1, pipelineCalls := 1
                      guardTripped := g.guardTripped, crashed := false, output := some p }
                | none =>
                    { sess := ir.sess, cache := ir.cache, fs := g.fs
                      msgs := ir.msgs ++ g.msgs
                      stopped := false, preprocessCalls := 1, pipelineCalls := 1
                      guardTripped := g.guardTripped, crashed := false, output := none }
    else
      { sess := ir.sess, cache := ir.cache, fs := fs, msgs := ir.msgs
        stopped := false, preprocessCalls := 0, pipelineCalls := 0
        guardTripped := false, crashed := false, output := none }

/-! Basic file-system lemmas. -/

theorem fsRead_fsWrite_self (fs : FS) (p : Path) (d : FileData) :
    fsRead (fsWrite fs p d) p = some d := by
  simp [fsRead, fsWrite]

theorem fsRead_fsWrite_ne (fs : FS) (p q : Path) (d : FileData) (h : q ≠ p) :
    fsRead (fsWrite fs q d) p = fsRead fs p := by
  simp [fsRead, fsWrite, h]

theorem freshPath_fsWrite_ne (fs : FS) (p : Path) (d : FileData) :
    freshPath (fsWrite fs p d) ≠ p := by
  have : p < freshPath (fsWrite fs p d) := by
    simp only [freshPath, fsWrite, maxKey]
    exact Nat.lt_succ_of_le (le_max_left _ _)
  exact (Nat.ne_of_lt this).symm

theorem initModel_model_isSome (ctor : Nat → Except String Handle)
    (sess : SessionState) (cs : CacheState) :
    ((initModel ctor sess cs).sess.model).isSome = true := by
  unfold initModel
  cases h : sess.model with
  | some v => simp [h]
  | none => simp [h]

/-! Claim C2: the model cache instantiates the engine at most once per
session. -/

/-- C2: within one session the engine constructor runs at most once: on a
fresh session and a cold cache, the first access to the model-cache getter
runs the constructor exactly once and stores its outcome (the handle on
success, the `None` sentinel on failure), and a second access in the same
session changes nothing — it returns the identical stored handle with no
re-instantiation and no retry after a failed construction. -/
theorem C2_model_cache_at_most_once (ctor : Nat → Except String Handle)
    (sess : SessionState) (cs : CacheState)
    (hm : sess.model = none) (hg : cs.gcache = none) :
    (initModel ctor (initModel ctor sess cs).sess (initModel ctor sess cs).cache).sess
      = (initModel ctor sess cs).sess ∧
    (initModel ctor (initModel ctor sess cs).sess (initModel ctor sess cs).cache).cache
      = (initModel ctor sess cs).cache ∧
    (initModel ctor sess cs).cache.ctorCalls = cs.ctorCalls + 1 ∧
    (initModel ctor sess cs).sess.model
      = some (match ctor cs.ctorCalls with
              | Except.ok h => some h
              | Except.error _ => none) := by
  cases hc : ctor cs.ctorCalls <;>
    simp [initModel, load_xtts_model, hm, hg, hc]

/-- Witness for C2 at a concrete constructor, session and cache. -/
theorem C2_model_cache_at_most_once_witness :
    (SessionState.mk none).model = none ∧
    (CacheState.mk none 0).gcache = none ∧
    ((initModel (fun n => Except.ok n)
        (initModel (fun n => Except.ok n) (SessionState.mk none) (CacheState.mk none 0)).sess
        (initModel (fun n => Except.ok n) (SessionState.mk none) (CacheState.mk none 0)).cache).sess
      = (initModel (fun n => Except.ok n) (SessionState.mk none) (CacheState.mk none 0)).sess ∧
     (initModel (fun n => Except.ok n)
        (initModel (fun n => Except.ok n) (SessionState.mk none) (CacheState.mk none 0)).sess
        (initModel (fun n => Except.ok n) (SessionState.mk none) (CacheState.mk none 0)).cache).cache
      = (initModel (fun n => Except.ok n) (SessionState.mk none) (CacheState.mk none 0)).cache ∧
     (initModel (fun n => Except.ok n) (SessionState.mk none) (CacheState.mk none 0)).cache.ctorCalls
      = 0 + 1 ∧
     (initModel (fun n => Except.ok n) (SessionState.mk none) (CacheState.mk none 0)).sess.model
      = some (match (fun (n : Nat) => Except.ok (ε := String) n) 0 with
              | Except.ok h => some h
              | Except.error _ => none)) :=
  ⟨rfl, rfl, C2_model_cache_at_most_once (fun n => Except.ok n)
    (SessionState.mk none) (CacheState.mk none 0) rfl rfl⟩

/-! Claim C8: the spec claims each session owns an independent engine
instance; the code caches the engine with the process-global
`st.cache_resource`, so distinct sessions share one handle. -/

/-- C8 counterexample: with the instrumented constructor `fun n => ok n`
(whose distinct invocations would yield distinct handles), a first fresh
session instantiates handle 0 and a second fresh session — reusing the
process-global resource cache — receives the very same handle 0, with the
constructor having run only once in total. The claimed per-session
distinct instantiation is therefore false. -/
theorem C8_counterexample_shared_handle :
    (initModel (fun n => Except.ok n) (SessionState.mk none)
        (initModel (fun n => Except.ok n) (SessionState.mk none)
          (CacheState.mk none 0)).cache).sess.model
      = some (some 0) ∧
    (initModel (fun n => Except.ok n) (SessionState.mk none)
        (CacheState.mk none 0)).sess.model
      = some (some 0) ∧
    (initModel (fun n => Except.ok n) (SessionState.mk none)
        (initModel (fun n => Except.ok n) (SessionState.mk none)
          (CacheState.mk none 0)).cache).cache.ctorCalls = 1 := by
  decide

/-- C8 as amended: the engine handle is cached process-wide, not
per-session: any fresh session that initialises its model while the global
resource cache already holds a constructed handle receives exactly that
shared handle, with no new instantiation and the cache unchanged. -/
theorem C8_amended_global_cache_shares_handle (ctor : Nat → Except String Handle)
    (sess : SessionState) (cs : CacheState) (h : Handle)
    (hm : sess.model = none) (hg : cs.gcache = some (some h)) :
    (initModel ctor sess cs).sess.model = some (some h) ∧
    (initModel ctor sess cs).cache = cs := by
  simp [initModel, load_xtts_model, hm, hg]

/-- Witness for the amended C8 at a concrete session and warm cache. -/
theorem C8_amended_global_cache_shares_handle_witness :
    (SessionState.mk none).model = none ∧
    (CacheState.mk (some (some 5)) 1).gcache = some (some 5) ∧
    ((initModel (fun n => Except.ok n) (SessionState.mk none)
        (CacheState.mk (some (some 5)) 1)).sess.model = some (some 5) ∧
     (initModel (fun n => Except.ok n) (SessionState.mk none)
        (CacheState.mk (some (some 5)) 1)).cache = CacheState.mk (some (some 5)) 1) :=
  ⟨rfl, rfl, C8_amended_global_cache_shares_handle (fun n => Except.ok n)
    (SessionState.mk none) (CacheState.mk (some (some 5)) 1) 5 rfl rfl⟩

/-! Claim C3: failed engine construction blocks the session (fail
closed). -/

/-- C3: when engine construction fails at session start (fresh session,
cold cache, constructor raises), the run stores the `None` sentinel in
both the session and the global cache, reports the load failure, stops the
script, and performs no preprocessing and no pipeline invocation; and any
subsequent run of the same session — whatever its inputs, decoder and
engine — also stops with zero preprocessor and pipeline calls and no
constructor retry. -/
theorem C3_fail_closed_on_load_failure (ctor : Nat → Except String Handle)
    (dec dec2 : FileData → Option (List Int))
    (engine engine2 : Handle → String → Option FileData → String → Except String FileData)
    (sess : SessionState) (cs : CacheState) (fs fs2 : FS) (inp inp2 : ScriptInput)
    (e : String)
    (hm : sess.model = none) (hg : cs.gcache = none)
    (hc : ctor cs.ctorCalls = Except.error e) :
    (runScript ctor dec engine sess cs fs inp).stopped = true ∧
    (runScript ctor dec engine sess cs fs inp).preprocessCalls = 0 ∧
    (runScript ctor dec engine sess cs fs inp).pipelineCalls = 0 ∧
    (runScript ctor dec engine sess cs fs inp).sess.model = some none ∧
    (runScript ctor dec engine sess cs fs inp).cache.gcache = some none ∧
    Msg.error ("❌ Model loading failed: " ++ e)
      ∈ (runScript ctor dec engine sess cs fs inp).msgs ∧
    (runScript ctor dec2 engine2 (runScript ctor dec engine sess cs fs inp).sess
        (runScript ctor dec engine sess cs fs inp).cache fs2 inp2).stopped = true ∧
    (runScript ctor dec2 engine2 (runScript ctor dec engine sess cs fs inp).sess
        (runScript ctor dec engine sess cs fs inp).cache fs2 inp2).preprocessCalls = 0 ∧
    (runScript ctor dec2 engine2 (runScript ctor dec engine sess cs fs inp).sess
        (runScript ctor dec engine sess cs fs inp).cache fs2 inp2).pipelineCalls = 0 ∧
    (runScript ctor dec2 engine2 (runScript ctor dec engine sess cs fs inp).sess
        (runScript ctor dec engine sess cs fs inp).cache fs2 inp2).cache.ctorCalls
      = (runScript ctor dec engine sess cs fs inp).cache.ctorCalls := by
  simp [runScript, initModel, load_xtts_model, hm, hg, hc]

/-- Witness for C3 at a concrete failing constructor and a generate-click
input. -/
theorem C3_fail_closed_on_load_failure_witness :
    (SessionState.mk none).model = none ∧
    (CacheState.mk none 0).gcache = none ∧
    (fun (_ : Nat) => Except.error (α := Handle) "missing weights") 0
      = Except.error "missing weights" ∧
    ((runScript (fun _ => Except.error "missing weights") (fun _ => none)
        (fun _ _ _ _ => Except.error "unused") (SessionState.mk none)
        (CacheState.mk none 0) []
        (ScriptInput.mk (some (FileData.raw [1])) "hello" "en" true)).stopped = true ∧
     (runScript (fun _ => Except.error "missing weights") (fun _ => none)
        (fun _ _ _ _ => Except.error "unused") (SessionState.mk none)
        (CacheState.mk none 0) []
        (ScriptInput.mk (some (FileData.raw [1])) "hello" "en" true)).preprocessCalls = 0 ∧
     (runScript (fun _ => Except.error "missing weights") (fun _ => none)
        (fun _ _ _ _ => Except.error "unused") (SessionState.mk none)
        (CacheState.mk none 0) []
        (ScriptInput.mk (some (FileData.raw [1])) "hello" "en" true)).pipelineCalls = 0 ∧
     (runScript (fun _ => Except.error "missing weights") (fun _ => none)
        (fun _ _ _ _ => Except.error "unused") (SessionState.mk none)
        (CacheState.mk none 0) []
        (ScriptInput.mk (some (FileData.raw [1])) "hello" "en" true)).sess.model = some none ∧
     (runScript (fun _ => Except.error "missing weights") (fun _ => none)
        (fun _ _ _ _ => Except.error "unused") (SessionState.mk none)
        (CacheState.mk none 0) []
        (ScriptInput.mk (some (FileData.raw [1])) "hello" "en" true)).cache.gcache = some none ∧
     Msg.error ("❌ Model loading failed: " ++ "missing weights")
      ∈ (runScript (fun _ => Except.error "missing weights") (fun _ => none)
        (fun _ _ _ _ => Except.error "unused") (SessionState.mk none)
        (CacheState.mk none 0) []
        (ScriptInput.mk (some (FileData.raw [1])) "hello" "en" true)).msgs ∧
     (runScript (fun _ => Except.error "missing weights") (fun _ => none)
        (fun _ _ _ _ => Except.error "unused")
        (runScript (fun _ => Except.error "missing weights") (fun _ => none)
          (fun _ _ _ _ => Except.error "unused") (SessionState.mk none)
          (CacheState.mk none 0) []
          (ScriptInput.mk (some (FileData.raw [1])) "hello" "en" true)).sess
        (runScript (fun _ => Except.error "missing weights") (fun _ => none)
          (fun _ _ _ _ => Except.error "unused") (SessionState.mk none)
          (CacheState.mk none 0) []
          (ScriptInput.mk (some (FileData.raw [1])) "hello" "en" true)).cache []
        (ScriptInput.mk (some (FileData.raw [1])) "hello" "en" true)).stopped = true ∧
     (runScript (fun _ => Except.error "missing weights") (fun _ => none)
        (fun _ _ _ _ => Except.error "unused")
        (runScript (fun _ => Except.error "missing weights") (fun _ => none)
          (fun _ _ _ _ => Except.error "unused") (SessionState.mk none)
          (CacheState.mk none 0) []
          (ScriptInput.mk (some (FileData.raw [1])) "hello" "en" true)).sess
        (runScript (fun _ => Except.error "missing weights") (fun _ => none)
          (fun _ _ _ _ => Except.error "unused") (SessionState.mk none)
          (CacheState.mk none 0) []
          (ScriptInput.mk (some (FileData.raw [1])) "hello" "en" true)).cache []
        (ScriptInput.mk (some (FileData.raw [1])) "hello" "en" true)).preprocessCalls = 0 ∧
     (runScript (fun _ => Except.error "missing weights") (fun _ => none)
        (fun _ _ _ _ => Except.error "unused")
        (runScript (fun _ => Except.error "missing weights") (fun _ => none)
          (fun _ _ _ _ => Except.error "unused") (SessionState.mk none)
          (CacheState.mk none 0) []
          (ScriptInput.mk (some (FileData.raw [1])) "hello" "en" true)).sess
        (runScript (fun _ => Except.error "missing weights") (fun _ => none)
          (fun _ _ _ _ => Except.error "unused") (SessionState.mk none)
          (CacheState.mk none 0) []
          (ScriptInput.mk (some (FileData.raw [1])) "hello" "en" true)).cache []
        (ScriptInput.mk (some (FileData.raw [1])) "hello" "en" true)).pipelineCalls = 0 ∧
     (runScript (fun _ => Except.error "missing weights") (fun _ => none)
        (fun _ _ _ _ => Except.error "unused")
        (runScript (fun _ => Except.error "missing weights") (fun _ => none)
          (fun _ _ _ _ => Except.error "unused") (SessionState.mk none)
          (CacheState.mk none 0) []
          (ScriptInput.mk (some (FileData.raw [1])) "hello" "en" true)).sess
        (runScript (fun _ => Except.error "missing weights") (fun _ => none)
          (fun _ _ _ _ => Except.error "unused") (SessionState.mk none)
          (CacheState.mk none 0) []
          (ScriptInput.mk (some (FileData.raw [1])) "hello" "en" true)).cache []
        (ScriptInput.mk (some (FileData.raw [1])) "hello" "en" true)).cache.ctorCalls
      = (runScript (fun _ => Except.error "missing weights") (fun _ => none)
          (fun _ _ _ _ => Except.error "unused") (SessionState.mk none)
          (CacheState.mk none 0) []
          (ScriptInput.mk (some (FileData.raw [1])) "hello" "en" true)).cache.ctorCalls) :=
  ⟨rfl, rfl, rfl, C3_fail_closed_on_load_failure
    (fun _ => Except.error "missing weights") (fun _ => none) (fun _ => none)
    (fun _ _ _ _ => Except.error "unused") (fun _ _ _ _ => Except.error "unused")
    (SessionState.mk none) (CacheState.mk none 0) [] []
    (ScriptInput.mk (some (FileData.raw [1])) "hello" "en" true)
    (ScriptInput.mk (some (FileData.raw [1])) "hello" "en" true)
    "missing weights" rfl rfl rfl⟩

/-! Claims C5, C6, C9: the audio preprocessor. -/

/-- C5: when the source decodes successfully (at the fixed 22050 Hz target
rate), the preprocessor writes to the output path exactly the first
`min(sourceLength, maxDuration * 22050)` samples of the decoded source,
re-encoded as WAV at 22050 Hz, returns the success flag `true`, and the
written sample count equals `min(sourceLength, maxDuration * 22050)`. -/
theorem C5_preprocess_truncates_to_cap (dec : FileData → Option (List Int))
    (fs : FS) (audio_path output_path max_duration : Nat)
    (src : FileData) (audio : List Int)
    (hsrc : fsRead fs audio_path = some src) (hdec : dec src = some audio) :
    preprocess_audio dec fs audio_path output_path max_duration
      = some (fsWrite fs output_path
          (FileData.wav (List.take (min audio.length (max_duration * 22050)) audio) 22050),
          true) ∧
    (List.take (min audio.length (max_duration * 22050)) audio).length
      = min audio.length (max_duration * 22050) := by
  constructor
  · simp [preprocess_audio, hsrc, hdec]
  · rw [List.length_take]
    omega

/-- Witness for C5: a 3-sample source under a 15-second cap. -/
theorem C5_preprocess_truncates_to_cap_witness :
    fsRead [(1, FileData.wav [2, 3, 4] 22050)] 1 = some (FileData.wav [2, 3, 4] 22050) ∧
    (fun fd => match fd with
      | FileData.wav s _ => some s
      | FileData.raw _ => none) (FileData.wav [2, 3, 4] 22050) = some [2, 3, 4] ∧
    (preprocess_audio
        (fun fd => match fd with
          | FileData.wav s _ => some s
          | FileData.raw _ => none)
        [(1, FileData.wav [2, 3, 4] 22050)] 1 2 15
      = some (fsWrite [(1, FileData.wav [2, 3, 4] 22050)] 2
          (FileData.wav (List.take (min (List.length [2, 3, 4]) (15 * 22050)) [2, 3, 4]) 22050),
          true) ∧
     (List.take (min (List.length [2, 3, 4]) (15 * 22050)) [2, 3, 4]).length
      = min (List.length [2, 3, 4]) (15 * 22050)) :=
  ⟨by decide, rfl, C5_preprocess_truncates_to_cap
    (fun fd => match fd with
      | FileData.wav s _ => some s
      | FileData.raw _ => none)
    [(1, FileData.wav [2, 3, 4] 22050)] 1 2 15
    (FileData.wav [2, 3, 4] 22050) [2, 3, 4] (by decide) rfl⟩

/-- C6: when decoding the source fails, the preprocessor copies the source
verbatim to the output path — the output file's contents equal the
source's contents exactly — and the only signal of this degraded path is
the returned flag `false`. -/
theorem C6_preprocess_fallback_copies_verbatim (dec : FileData → Option (List Int))
    (fs : FS) (audio_path output_path max_duration : Nat) (src : FileData)
    (hsrc : fsRead fs audio_path = some src) (hdec : dec src = none) :
    preprocess_audio dec fs audio_path output_path max_duration
      = some (fsWrite fs output_path src, false) ∧
    fsRead (fsWrite fs output_path src) output_path = some src := by
  exact ⟨by simp [preprocess_audio, hsrc, hdec], fsRead_fsWrite_self _ _ _⟩

/-- Witness for C6: an undecodable raw source is copied byte-for-byte. -/
theorem C6_preprocess_fallback_copies_verbatim_witness :
    fsRead [(1, FileData.raw [9, 9])] 1 = some (FileData.raw [9, 9]) ∧
    (fun (_ : FileData) => (none : Option (List Int))) (FileData.raw [9, 9]) = none ∧
    (preprocess_audio (fun _ => none) [(1, FileData.raw [9, 9])] 1 2 15
      = some (fsWrite [(1, FileData.raw [9, 9])] 2 (FileData.raw [9, 9]), false) ∧
     fsRead (fsWrite [(1, FileData.raw [9, 9])] 2 (FileData.raw [9, 9])) 2
      = some (FileData.raw [9, 9])) :=
  ⟨by decide, rfl, C6_preprocess_fallback_copies_verbatim (fun _ => none)
    [(1, FileData.raw [9, 9])] 1 2 15 (FileData.raw [9, 9]) (by decide) rfl⟩

/-- C9: on every invocation whose source exists (normal path or fallback
path alike, the decoder being arbitrary), the preprocessor succeeds,
afterwards the source file still holds its original contents, and every
path other than the output path is untouched: the preprocessor writes only
to the output path and never deletes or modifies the source. -/
theorem C9_preprocess_never_touches_source (dec : FileData → Option (List Int))
    (fs : FS) (audio_path output_path max_duration : Nat) (src : FileData)
    (hne : audio_path ≠ output_path) (hsrc : fsRead fs audio_path = some src) :
    (preprocess_audio dec fs audio_path output_path max_duration).isSome = true ∧
    fsRead ((preprocess_audio dec fs audio_path output_path max_duration).getD
        (fs, false)).1 audio_path = some src ∧
    ∀ q, q ≠ output_path →
      fsRead ((preprocess_audio dec fs audio_path output_path max_duration).getD
          (fs, false)).1 q = fsRead fs q := by
  cases hdec : dec src with
  | some audio =>
    have heq : preprocess_audio dec fs audio_path output_path max_duration
        = some (fsWrite fs output_path
            (FileData.wav (List.take (min audio.length (max_duration * 22050)) audio) 22050),
            true) := by
      simp [preprocess_audio, hsrc, hdec]
    rw [heq]
    refine ⟨rfl, ?_, ?_⟩
    · rw [Option.getD_some]
      rw [fsRead_fsWrite_ne fs audio_path output_path _ (Ne.symm hne)]
      exact hsrc
    · intro q hq
      rw [Option.getD_some]
      exact fsRead_fsWrite_ne fs q output_path _ (Ne.symm hq)
  | none =>
    have heq : preprocess_audio dec fs audio_path output_path max_duration
        = some (fsWrite fs output_path src, false) := by
      simp [preprocess_audio, hsrc, hdec]
    rw [heq]
    refine ⟨rfl, ?_, ?_⟩
    · rw [Option.getD_some]
      rw [fsRead_fsWrite_ne fs audio_path output_path _ (Ne.symm hne)]
      exact hsrc
    · intro q hq
      rw [Option.getD_some]
      exact fsRead_fsWrite_ne fs q output_path _ (Ne.symm hq)

/-- Witness for C9 on the fallback path at concrete files. -/
theorem C9_preprocess_never_touches_source_witness :
    (1 : Nat) ≠ 2 ∧
    fsRead [(1, FileData.raw [7])] 1 = some (FileData.raw [7]) ∧
    ((preprocess_audio (fun _ => none) [(1, FileData.raw [7])] 1 2 15).isSome = true ∧
     fsRead ((preprocess_audio (fun _ => none) [(1, FileData.raw [7])] 1 2 15).getD
        ([(1, FileData.raw [7])], false)).1 1 = some (FileData.raw [7]) ∧
     ∀ q, q ≠ 2 →
      fsRead ((preprocess_audio (fun _ => none) [(1, FileData.raw [7])] 1 2 15).getD
          ([(1, FileData.raw [7])], false)).1 q = fsRead [(1, FileData.raw [7])] q) :=
  ⟨by decide, by decide, C9_preprocess_never_touches_source (fun _ => none)
    [(1, FileData.raw [7])] 1 2 15 (FileData.raw [7]) (by decide) (by decide)⟩

/-! Claim C7: exception containment around the engine call. -/

/-- The user-facing message built from an engine exception is never
empty. -/
theorem cloning_failed_msg_ne_empty (e : String) :
    ("❌ Voice cloning failed: " ++ e) ≠ "" := by
  intro hc
  have hl := congrArg String.length hc
  rw [String.length_append] at hl
  have hp : ("❌ Voice cloning failed: ").length = 24 := rfl
  have h0 : ("" : String).length = 0 := rfl
  rw [hp, h0] at hl
  exact absurd hl (by omega)

/-- C7: with an available engine, an exception `e` raised by the external
engine call inside `generate_voice_clone` is caught at that boundary and
converted into a failure: the function returns `None`, emits exactly one
user-facing error message that contains the underlying exception's
message, and invokes the engine exactly once (no retry); the session
remains usable — a subsequent invocation on the same session whose engine
call succeeds returns an output path. -/
theorem C7_engine_exception_contained
    (engine engine2 : Handle → String → Option FileData → String → Except String FileData)
    (sess : SessionState) (fs : FS)
    (text language text2 language2 : String) (reference_audio_path ref2 : Path)
    (h : Handle) (e : String) (d : FileData)
    (hm : sess.model = some (some h))
    (he : engine h text (fsRead fs reference_audio_path) language = Except.error e)
    (h2 : engine2 h text2
        (fsRead (generate_voice_clone engine sess fs text reference_audio_path language).fs ref2)
        language2 = Except.ok d) :
    (generate_voice_clone engine sess fs text reference_audio_path language).output = none ∧
    (generate_voice_clone engine sess fs text reference_audio_path language).msgs
      = [Msg.error ("❌ Voice cloning failed: " ++ e)] ∧
    ("❌ Voice cloning failed: " ++ e) ≠ "" ∧
    (generate_voice_clone engine sess fs text reference_audio_path language).engineCalls = 1 ∧
    (generate_voice_clone engine2 sess
        (generate_voice_clone engine sess fs text reference_audio_path language).fs
        text2 ref2 language2).output
      = some (freshPath
          (generate_voice_clone engine sess fs text reference_audio_path language).fs) := by
  simp only [generate_voice_clone, hm, he] at h2 ⊢
  refine ⟨?_, ?_, cloning_failed_msg_ne_empty e, ?_, ?_⟩ <;> simp [h2]

/-- Witness for C7 at a concrete failing engine and a succeeding retry. -/
theorem C7_engine_exception_contained_witness :
    (SessionState.mk (some (some 0))).model = some (some 0) ∧
    (fun (_ : Handle) (_ : String) (_ : Option FileData) (_ : String) =>
        Except.error (α := FileData) "boom") 0 "hi" (fsRead [] 3) "en"
      = Except.error "boom" ∧
    (fun (_ : Handle) (_ : String) (_ : Option FileData) (_ : String) =>
        Except.ok (ε := String) (FileData.wav [] 22050)) 0 "again"
      (fsRead (generate_voice_clone (fun _ _ _ _ => Except.error "boom")
          (SessionState.mk (some (some 0))) [] "hi" 3 "en").fs 3) "en"
      = Except.ok (FileData.wav [] 22050) ∧
    ((generate_voice_clone (fun _ _ _ _ => Except.error "boom")
        (SessionState.mk (some (some 0))) [] "hi" 3 "en").output = none ∧
     (generate_voice_clone (fun _ _ _ _ => Except.error "boom")
        (SessionState.mk (some (some 0))) [] "hi" 3 "en").msgs
      = [Msg.error ("❌ Voice cloning failed: " ++ "boom")] ∧
     ("❌ Voice cloning failed: " ++ "boom") ≠ "" ∧
     (generate_voice_clone (fun _ _ _ _ => Except.error "boom")
        (SessionState.mk (some (some 0))) [] "hi" 3 "en").engineCalls = 1 ∧
     (generate_voice_clone (fun _ _ _ _ => Except.ok (FileData.wav [] 22050))
        (SessionState.mk (some (some 0)))
        (generate_voice_clone (fun _ _ _ _ => Except.error "boom")
          (SessionState.mk (some (some 0))) [] "hi" 3 "en").fs
        "again" 3 "en").output
      = some (freshPath
          (generate_voice_clone (fun _ _ _ _ => Except.error "boom")
            (SessionState.mk (some (some 0))) [] "hi" 3 "en").fs)) :=
  ⟨rfl, rfl, rfl, C7_engine_exception_contained
    (fun _ _ _ _ => Except.error "boom") (fun _ _ _ _ => Except.ok (FileData.wav [] 22050))
    (SessionState.mk (some (some 0))) [] "hi" "en" "again" "en" 3 3 0 "boom"
    (FileData.wav [] 22050) rfl rfl rfl⟩

/-! Claim C4: input validation reports a warning and performs no work. -/

/-- C4: on a generate click with an available engine, if the text is blank
(empty after trimming) or no reference audio was uploaded, the run emits a
validation warning and performs no work: zero preprocessor calls, zero
pipeline calls, no output, and the file system is untouched. -/
theorem C4_validation_warning_no_work (ctor : Nat → Except String Handle)
    (dec : FileData → Option (List Int))
    (engine : Handle → String → Option FileData → String → Except String FileData)
    (sess : SessionState) (cs : CacheState) (fs : FS) (inp : ScriptInput) (h : Handle)
    (hm : sess.model = some (some h)) (hclick : inp.generateClicked = true)
    (hbad : strip inp.text = "" ∨ inp.uploaded = none) :
    (runScript ctor dec engine sess cs fs inp).preprocessCalls = 0 ∧
    (runScript ctor dec engine sess cs fs inp).pipelineCalls = 0 ∧
    (runScript ctor dec engine sess cs fs inp).fs = fs ∧
    (runScript ctor dec engine sess cs fs inp).output = none ∧
    ∃ w, Msg.warning w ∈ (runScript ctor dec engine sess cs fs inp).msgs := by
  have hinit : initModel ctor sess cs = { sess := sess, cache := cs, msgs := [] } := by
    simp [initModel, hm]
  by_cases ht : strip inp.text = ""
  · refine ⟨?_, ?_, ?_, ?_, "⚠️ Please enter some text.", ?_⟩ <;>
      simp [runScript, hinit, hm, hclick, ht]
  · rcases hbad with hb | hup
    · exact absurd hb ht
    · refine ⟨?_, ?_, ?_, ?_, "⚠️ Please upload a reference audio file.", ?_⟩ <;>
        simp [runScript, hinit, hm, hclick, ht, hup]

/-- Witness for C4 at a blank-text generate click. -/
theorem C4_validation_warning_no_work_witness :
    (SessionState.mk (some (some 0))).model = some (some 0) ∧
    (ScriptInput.mk (some (FileData.raw [1])) "" "en" true).generateClicked = true ∧
    (strip (ScriptInput.mk (some (FileData.raw [1])) "" "en" true).text = ""
      ∨ (ScriptInput.mk (some (FileData.raw [1])) "" "en" true).uploaded = none) ∧
    ((runScript (fun n => Except.ok n) (fun _ => none) (fun _ _ _ _ => Except.error "unused")
        (SessionState.mk (some (some 0))) (CacheState.mk (some (some 0)) 1) []
        (ScriptInput.mk (some (FileData.raw [1])) "" "en" true)).preprocessCalls = 0 ∧
     (runScript (fun n => Except.ok n) (fun _ => none) (fun _ _ _ _ => Except.error "unused")
        (SessionState.mk (some (some 0))) (CacheState.mk (some (some 0)) 1) []
        (ScriptInput.mk (some (FileData.raw [1])) "" "en" true)).pipelineCalls = 0 ∧
     (runScript (fun n => Except.ok n) (fun _ => none) (fun _ _ _ _ => Except.error "unused")
        (SessionState.mk (some (some 0))) (CacheState.mk (some (some 0)) 1) []
        (ScriptInput.mk (some (FileData.raw [1])) "" "en" true)).fs = [] ∧
     (runScript (fun n => Except.ok n) (fun _ => none) (fun _ _ _ _ => Except.error "unused")
        (SessionState.mk (some (some 0))) (CacheState.mk (some (some 0)) 1) []
        (ScriptInput.mk (some (FileData.raw [1])) "" "en" true)).output = none ∧
     ∃ w, Msg.warning w ∈ (runScript (fun n => Except.ok n) (fun _ => none)
        (fun _ _ _ _ => Except.error "unused")
        (SessionState.mk (some (some 0))) (CacheState.mk (some (some 0)) 1) []
        (ScriptInput.mk (some (FileData.raw [1])) "" "en" true)).msgs) :=
  ⟨rfl, rfl, Or.inl (by decide), C4_validation_warning_no_work
    (fun n => Except.ok n) (fun _ => none) (fun _ _ _ _ => Except.error "unused")
    (SessionState.mk (some (some 0))) (CacheState.mk (some (some 0)) 1) []
    (ScriptInput.mk (some (FileData.raw [1])) "" "en" true) 0
    rfl rfl (Or.inl (by decide))⟩

/-! Claim C10: the falsy-model guard inside the pipeline is unreachable
through the UI flow. -/

/-- Every arm of the script leaves the session produced by the
initialisation step unchanged. -/
theorem runScript_sess_eq_init (ctor : Nat → Except String Handle)
    (dec : FileData → Option (List Int))
    (engine : Handle → String → Option FileData → String → Except String FileData)
    (sess : SessionState) (cs : CacheState) (fs : FS) (inp : ScriptInput) :
    (runScript ctor dec engine sess cs fs inp).sess = (initModel ctor sess cs).sess := by
  simp only [runScript]
  repeat first | rfl | split

/-- C10: the falsy-model guard inside `generate_voice_clone` never fires
through the UI flow — the script halts before the generate button whenever
the cached model is `None`, so on every run, whatever the inputs and
oracles, the guard flag stays `false`; and whenever the pipeline was
invoked at all, the session's cached model is a real handle. -/
theorem C10_falsy_model_guard_unreachable (ctor : Nat → Except String Handle)
    (dec : FileData → Option (List Int))
    (engine : Handle → String → Option FileData → String → Except String FileData)
    (sess : SessionState) (cs : CacheState) (fs : FS) (inp : ScriptInput) :
    (runScript ctor dec engine sess cs fs inp).guardTripped = false ∧
    ((runScript ctor dec engine sess cs fs inp).pipelineCalls = 0 ∨
     ∃ hdl, (runScript ctor dec engine sess cs fs inp).sess.model = some (some hdl)) := by
  have hs := initModel_model_isSome ctor sess cs
  cases hv : (initModel ctor sess cs).sess.model with
  | none => rw [hv] at hs; exact absurd hs (by simp)
  | some v =>
    cases v with
    | none =>
      refine ⟨?_, Or.inl ?_⟩ <;> simp [runScript, hv]
    | some hdl =>
      have hg : ∀ fsx t r l,
          (generate_voice_clone engine (initModel ctor sess cs).sess fsx t r l).guardTripped
            = false := by
        intro fsx t r l
        simp only [generate_voice_clone, hv]
        cases engine hdl t (fsRead fsx r) l <;> simp
      refine ⟨?_, Or.inr ⟨hdl, by rw [runScript_sess_eq_init, hv]⟩⟩
      simp only [runScript, hv]
      repeat first | rfl | exact hg _ _ _ _ | split

/-! Claim C1: a valid generate action yields exactly one of success with
an existing output file, or failure with a non-empty error message. -/

/-- A preprocessor invocation whose source file exists never raises. -/
theorem preprocess_audio_isSome (dec : FileData → Option (List Int)) (fs : FS)
    (audio_path output_path max_duration : Nat) (src : FileData)
    (hsrc : fsRead fs audio_path = some src) :
    (preprocess_audio dec fs audio_path output_path max_duration).isSome = true := by
  cases hdec : dec src <;> simp [preprocess_audio, hsrc, hdec]

/-- On the valid generate path (engine available, button clicked, text
non-blank, upload present) the script's resulting file system and output
are those of the pipeline invocation, and every pipeline message is
surfaced. -/
theorem runScript_valid_path (ctor : Nat → Except String Handle)
    (dec : FileData → Option (List Int))
    (engine : Handle → String → Option FileData → String → Except String FileData)
    (sess : SessionState) (cs : CacheState) (fs : FS) (inp : ScriptInput)
    (h : Handle) (u : FileData) (pr : FS × Bool)
    (hm : sess.model = some (some h)) (hclick : inp.generateClicked = true)
    (htext : strip inp.text ≠ "") (hup : inp.uploaded = some u)
    (hpre : preprocess_audio dec
        (fsWrite (fsWrite fs (freshPath fs) u)
          (freshPath (fsWrite fs (freshPath fs) u)) (FileData.raw []))
        (freshPath fs) (freshPath (fsWrite fs (freshPath fs) u)) 15 = some pr) :
    (runScript ctor dec engine sess cs fs inp).fs
      = (generate_voice_clone engine sess pr.1 inp.text
          (freshPath (fsWrite fs (freshPath fs) u)) inp.language).fs ∧
    (runScript ctor dec engine sess cs fs inp).output
      = (generate_voice_clone engine sess pr.1 inp.text
          (freshPath (fsWrite fs (freshPath fs) u)) inp.language).output ∧
    ∀ m, m ∈ (generate_voice_clone engine sess pr.1 inp.text
          (freshPath (fsWrite fs (freshPath fs) u)) inp.language).msgs →
      m ∈ (runScript ctor dec engine sess cs fs inp).msgs := by
  have hinit : initModel ctor sess cs = { sess := sess, cache := cs, msgs := [] } := by
    simp [initModel, hm]
  cases hout : (generate_voice_clone engine sess pr.1 inp.text
      (freshPath (fsWrite fs (freshPath fs) u)) inp.language).output <;>
    (simp [runScript, hinit, hm, hclick, htext, hup, hpre, hout]; try tauto)

/-- C1: for every generate action with non-blank text, an uploaded
reference file and an available engine, the outcome is exactly one of: a
success result whose output path refers to an existing file, or a failure
result accompanied by a non-empty error message — never both, never
neither. -/
theorem C1_generate_outcome_exactly_one (ctor : Nat → Except String Handle)
    (dec : FileData → Option (List Int))
    (engine : Handle → String → Option FileData → String → Except String FileData)
    (sess : SessionState) (cs : CacheState) (fs : FS) (inp : ScriptInput)
    (h : Handle) (u : FileData)
    (hm : sess.model = some (some h)) (hclick : inp.generateClicked = true)
    (htext : strip inp.text ≠ "") (hup : inp.uploaded = some u) :
    Xor'
      (∃ p, (runScript ctor dec engine sess cs fs inp).output = some p ∧
        (fsRead (runScript ctor dec engine sess cs fs inp).fs p).isSome = true)
      ((runScript ctor dec engine sess cs fs inp).output = none ∧
       ∃ e, Msg.error e ∈ (runScript ctor dec engine sess cs fs inp).msgs ∧ e ≠ "") := by
  have hne : freshPath (fsWrite fs (freshPath fs) u) ≠ freshPath fs :=
    freshPath_fsWrite_ne fs (freshPath fs) u
  have hsrc : fsRead (fsWrite (fsWrite fs (freshPath fs) u)
      (freshPath (fsWrite fs (freshPath fs) u)) (FileData.raw []))
      (freshPath fs) = some u := by
    rw [fsRead_fsWrite_ne _ _ _ _ hne, fsRead_fsWrite_self]
  obtain ⟨pr, hpre⟩ := Option.isSome_iff_exists.mp
    (preprocess_audio_isSome dec _ (freshPath fs)
      (freshPath (fsWrite fs (freshPath fs) u)) 15 u hsrc)
  obtain ⟨hfs, hout, hmsgs⟩ := runScript_valid_path ctor dec engine sess cs fs inp h u pr
    hm hclick htext hup hpre
  cases heng : engine h inp.text (fsRead pr.1 (freshPath (fsWrite fs (freshPath fs) u)))
      inp.language with
  | ok d =>
    have hg : generate_voice_clone engine sess pr.1 inp.text
        (freshPath (fsWrite fs (freshPath fs) u)) inp.language
        = { fs := fsWrite (fsWrite pr.1 (freshPath pr.1) (FileData.raw [])) (freshPath pr.1) d
            msgs := [], output := some (freshPath pr.1)
            engineCalls := 1, guardTripped := false } := by
      simp [generate_voice_clone, hm, heng]
    refine Or.inl ⟨⟨freshPath pr.1, ?_, ?_⟩, ?_⟩
    · rw [hout, hg]
    · rw [hfs, hg]
      simp [fsRead_fsWrite_self]
    · rintro ⟨hnone, -⟩
      rw [hout, hg] at hnone
      exact Option.noConfusion hnone
  | error e =>
    have hg : generate_voice_clone engine sess pr.1 inp.text
        (freshPath (fsWrite fs (freshPath fs) u)) inp.language
        = { fs := fsWrite pr.1 (freshPath pr.1) (FileData.raw [])
            msgs := [Msg.error ("❌ Voice cloning failed: " ++ e)], output := none
            engineCalls := 1, guardTripped := false } := by
      simp [generate_voice_clone, hm, heng]
    refine Or.inr ⟨⟨?_, "❌ Voice cloning failed: " ++ e, ?_,
      cloning_failed_msg_ne_empty e⟩, ?_⟩
    · rw [hout, hg]
    · exact hmsgs _ (by rw [hg]; exact List.mem_singleton_self _)
    · rintro ⟨p, hp, -⟩
      rw [hout, hg] at hp
      exact Option.noConfusion hp

/-- Witness for C1 at a concrete valid generate action whose engine call
succeeds. -/
theorem C1_generate_outcome_exactly_one_witness :
    (SessionState.mk (some (some 0))).model = some (some 0) ∧
    (ScriptInput.mk (some (FileData.raw [1])) "hi" "en" true).generateClicked = true ∧
    strip (ScriptInput.mk (some (FileData.raw [1])) "hi" "en" true).text ≠ "" ∧
    (ScriptInput.mk (some (FileData.raw [1])) "hi" "en" true).uploaded
      = some (FileData.raw [1]) ∧
    Xor'
      (∃ p, (runScript (fun n => Except.ok n) (fun _ => none)
          (fun _ _ _ _ => Except.ok (FileData.wav [0] 22050))
          (SessionState.mk (some (some 0))) (CacheState.mk (some (some 0)) 1) []
          (ScriptInput.mk (some (FileData.raw [1])) "hi" "en" true)).output = some p ∧
        (fsRead (runScript (fun n => Except.ok n) (fun _ => none)
          (fun _ _ _ _ => Except.ok (FileData.wav [0] 22050))
          (SessionState.mk (some (some 0))) (CacheState.mk (some (some 0)) 1) []
          (ScriptInput.mk (some (FileData.raw [1])) "hi" "en" true)).fs p).isSome = true)
      ((runScript (fun n => Except.ok n) (fun _ => none)
          (fun _ _ _ _ => Except.ok (FileData.wav [0] 22050))
          (SessionState.mk (some (some 0))) (CacheState.mk (some (some 0)) 1) []
          (ScriptInput.mk (some (FileData.raw [1])) "hi" "en" true)).output = none ∧
       ∃ e, Msg.error e ∈ (runScript (fun n => Except.ok n) (fun _ => none)
          (fun _ _ _ _ => Except.ok (FileData.wav [0] 22050))
          (SessionState.mk (some (some 0))) (CacheState.mk (some (some 0)) 1) []
          (ScriptInput.mk (some (FileData.raw [1])) "hi" "en" true)).msgs ∧ e ≠ "") :=
  ⟨rfl, rfl, by decide, rfl, C1_generate_outcome_exactly_one
    (fun n => Except.ok n) (fun _ => none)
    (fun _ _ _ _ => Except.ok (FileData.wav [0] 22050))
    (SessionState.mk (some (some 0))) (CacheState.mk (some (some 0)) 1) []
    (ScriptInput.mk (some (FileData.raw [1])) "hi" "en" true) 0 (FileData.raw [1])
    rfl rfl (by decide) rfl⟩

end VoiceCloner
